import Mathlib

/-!
Shallow embedding of the virtual-resolution rendering and capture pipeline of
the repository: the numeric per-frame computations of `examples/pp.rs` and
`examples/pi.rs` (modelled over `ℚ`, since the computations of interest are
exact on the inputs considered), and the capture session of `src/capture.rs`
(modelled over `Nat`/`String` state with an explicit filesystem log).
-/

/-! ## Numeric core (`examples/pp.rs`, `examples/pi.rs`) -/

/-- A 2-component vector, standing in for `glam::Vec2` with exact rationals. -/
structure Vec2 where
  x : ℚ
  y : ℚ
  deriving DecidableEq, Repr

/-- Computable floor on `ℚ` (agrees with `⌊⌋`, see `floorQ_eq`). -/
def floorQ (q : ℚ) : ℤ :=
  Rat.floor q

/-- Computable ceiling on `ℚ` (agrees with `⌈⌉`, see `ceilQ_eq`). -/
def ceilQ (q : ℚ) : ℤ :=
  -floorQ (-q)

/-- Computable rounding on `ℚ` (agrees with `round`, see `roundQ_eq`). -/
def roundQ (q : ℚ) : ℤ :=
  floorQ (q + 1/2)

/-- Truncation toward zero, the semantics of Rust `as i32` / the integral part
used by `f32::%`. -/
def truncQ (q : ℚ) : ℤ :=
  if 0 ≤ q then floorQ q else ceilQ q

/-- Rust's `%` on floats (`fmod`): `a - b * trunc (a / b)`. -/
def fmodQ (a b : ℚ) : ℚ :=
  a - b * (truncQ (a / b) : ℚ)

/-- `pp.rs` line 166: `let leftover_pixels = vec2(res.x % scale, res.y % scale);`. -/
def leftover_pixels (res : Vec2) (scale : ℚ) : Vec2 :=
  ⟨fmodQ res.x scale, fmodQ res.y scale⟩

/-- `pp.rs` lines 169-170 (Overscan sizing):
`let canvas_size = vec2(res.x - leftover_pixels.x, res.y - leftover_pixels.y) / scale + Vec2::ONE;`. -/
def canvas_size (res : Vec2) (scale : ℚ) : Vec2 :=
  ⟨(res.x - (leftover_pixels res scale).x) / scale + 1,
   (res.y - (leftover_pixels res scale).y) / scale + 1⟩

/-- `pp.rs` line 181 / `pi.rs` line 212:
`let camera_offset_pixel_aligned = camera_offset_ideal.floor();`. -/
def camera_offset_pixel_aligned (ideal : Vec2) : Vec2 :=
  ⟨(floorQ ideal.x : ℚ), (floorQ ideal.y : ℚ)⟩

/-- Componentwise rounding, following the spec word `round` in
"aligned_offset = round(ideal_offset)"; stated only to compare the spec's
formula with the source's `camera_offset_pixel_aligned`. -/
def roundedOffsetSpec (ideal : Vec2) : Vec2 :=
  ⟨(roundQ ideal.x : ℚ), (roundQ ideal.y : ℚ)⟩

/-- `pp.rs` lines 285-287:
`let diff = ((camera_offset_ideal - camera_offset_pixel_aligned) * scale).as_ivec2().as_vec2();`.
The `as_ivec2` conversion truncates each component toward zero. -/
def sampleDiff (ideal : Vec2) (scale : ℚ) : Vec2 :=
  ⟨(truncQ ((ideal.x - (camera_offset_pixel_aligned ideal).x) * scale) : ℚ),
   (truncQ ((ideal.y - (camera_offset_pixel_aligned ideal).y) * scale) : ℚ)⟩

/-- `pp.rs` line 290: the `z`/`w` components of the `u_sampleProperties`
uniform, `[0.0, 0.0, diff.x, 1.0 - diff.y]` (the `y` component is flipped
because the render target texture is drawn v-flipped). -/
def u_sampleProperties_zw (ideal : Vec2) (scale : ℚ) : Vec2 :=
  ⟨(sampleDiff ideal scale).x, 1 - (sampleDiff ideal scale).y⟩

/-- `pp.rs` lines 195-198: mapping the pointer's device position into the
virtual canvas,
`(mouse_position().0 - (screen_width() - (canvas_size.x * scale)) * 0.5) / scale`
componentwise (so the letterbox offset is `(res - canvas_size * scale) * 0.5`). -/
def virtual_mouse_pos_exact (mouse res cs : Vec2) (scale : ℚ) : Vec2 :=
  ⟨(mouse.x - (res.x - cs.x * scale) * (1/2)) / scale,
   (mouse.y - (res.y - cs.y * scale) * (1/2)) / scale⟩

/-- Modelled from the spec: `canvas_to_screen` is not present under `src/`
(the demos only use macroquad's own `world_to_screen`); §4.3 gives the formula
`screen_pos = canvas_pos * scale + letterbox_offset`, with the letterbox offset
taken as the same `(res - canvas_size * scale) * 0.5` that
`virtual_mouse_pos_exact` inverts. -/
def canvas_to_screen (p res cs : Vec2) (scale : ℚ) : Vec2 :=
  ⟨p.x * scale + (res.x - cs.x * scale) * (1/2),
   p.y * scale + (res.y - cs.y * scale) * (1/2)⟩

/-! ## Capture session (`src/capture.rs`) -/

/-- A fully-resolved pixel buffer handed to `save_frame` (macroquad's `Image`);
its contents are opaque to `capture.rs`. -/
structure Image where
  width : Nat
  height : Nat
  bytes : List Nat
  deriving DecidableEq, Repr

/-- The filesystem as observed by the capture module: the log of created
directories and written files. -/
structure FS where
  dirs : List String
  files : List String
  deriving DecidableEq, Repr

/-- `capture.rs` lines 9-13: `pub struct ScreenCapture { frame_number: usize, dir: String }`. -/
structure ScreenCapture where
  frame_number : Nat
  dir : String
  deriving DecidableEq, Repr

/-- Modelled from the spec: the error taxonomy of §7 (`src/` itself declares no
error type). Used to state what the code does and does not report. -/
inductive CaptureError where
  | invalidScale
  | captureInitError
  | captureWriteError
  | invalidTransition
  deriving DecidableEq, Repr

/-- Possible outcomes of `begin_capture`: a constructed session together with
the filesystem effect, a reported error (per the spec's §4.5/§7 — the source
never produces this), or a Rust panic. -/
inductive BeginResult where
  | ok (session : ScreenCapture) (fs : FS)
  | err (e : CaptureError) (fs : FS)
  | panicked (msg : String)
  deriving DecidableEq, Repr

/-- `capture.rs` lines 22-25: the session directory name
`capture/{millis}/frames/` derived from the wall clock. -/
def captureDirName (millis : Nat) : String :=
  "capture/" ++ toString millis ++ "/frames/"

/-- `capture.rs` lines 16-33 (`ScreenCapture::begin_capture`): derive the
directory name from the clock and `std::fs::create_dir_all(&dir).expect(..)`.
The `createDirSucceeds` flag is the environment's answer to `create_dir_all`;
on failure the source panics (`expect`) with the message below. -/
def begin_capture (millis : Nat) (fs : FS) (createDirSucceeds : Bool) : BeginResult :=
  let dir := captureDirName millis
  if createDirSucceeds then
    .ok ⟨0, dir⟩ ⟨dir :: fs.dirs, fs.files⟩
  else
    .panicked ("failed to create capture dir")

/-- Modelled from the spec: `Image::export_png` lives outside `src/` (only its
caller `save_frame` is here); per §4.5 it synchronously encodes and writes the
file and the write may fail, in which case no file appears. The
`writeSucceeds` flag is the environment's answer. -/
def export_png (_data : Image) (path : String) (fs : FS) (writeSucceeds : Bool) : FS :=
  if writeSucceeds then ⟨fs.dirs, path :: fs.files⟩ else fs

/-- `capture.rs` lines 36-40: the per-frame filename
`{capture_dir}/{frame_number}.png`. -/
def frameFilename (s : ScreenCapture) : String :=
  s.dir ++ "/" ++ toString s.frame_number ++ ".png"

/-- `capture.rs` lines 35-44 (`ScreenCapture::save_frame`): export the pixel
buffer to `{dir}/{frame_number}.png`, then `self.frame_number += 1` — the
increment is unconditional, the source never inspects a write outcome. -/
def save_frame (s : ScreenCapture) (data : Image) (fs : FS) (writeSucceeds : Bool) :
    ScreenCapture × FS :=
  let fs' := export_png data (frameFilename s) fs writeSucceeds
  (⟨s.frame_number + 1, s.dir⟩, fs')

/-- `n` consecutive successful `save_frame` calls. -/
def saveFrames (img : Image) : ScreenCapture → FS → Nat → ScreenCapture × FS
  | s, fs, 0 => (s, fs)
  | s, fs, n + 1 =>
    let r := save_frame s img fs true
    saveFrames img r.1 r.2 n

/-- `capture.rs` lines 46-51 (`ScreenCapture::end_capture`): only logs a
summary; no field of the session and nothing on the filesystem changes. -/
def end_capture (s : ScreenCapture) (fs : FS) : ScreenCapture × FS × String :=
  (s, fs, "Captured " ++ toString s.frame_number ++ " frames to " ++ s.dir)

/-- The host's view of the capture lifecycle (spec §4.5 state machine):
either no session is active, or one `ScreenCapture` is. -/
inductive CaptureState where
  | inactive
  | active (session : ScreenCapture)
  deriving DecidableEq, Repr

/-- Modelled from the spec: the Inactive/Active wrapper around `ScreenCapture`
is not under `src/` (the host application holds the session); §4.5/§7 say a
`save_frame` request while `Inactive` fails fast with `InvalidTransition` and
creates no file, while an `Active` session delegates to the source's
`save_frame`. -/
def trySaveFrame (st : CaptureState) (data : Image) (fs : FS) (writeSucceeds : Bool) :
    CaptureState × FS × Option CaptureError :=
  match st with
  | .inactive => (.inactive, fs, some .invalidTransition)
  | .active s =>
    let r := save_frame s data fs writeSucceeds
    (.active r.1, r.2, none)

/-! ## Decimal-numeral injectivity

`save_frame` names files by `toString frame_number`; to show the `n` files of
a session are pairwise distinct we prove that the decimal numeral of a `Nat`
determines it, by evaluating numerals back to their value. -/

/-- The value of a big-endian list of decimal digit characters. -/
def digListVal : List Char → Nat
  | [] => 0
  | c :: cs => (c.toNat - 48) * 10 ^ cs.length + digListVal cs

/-! ## Bridging lemmas for the computable floor operations -/

theorem floorQ_eq (q : ℚ) : floorQ q = ⌊q⌋ := by
  rw [floorQ, Rat.floor_def, Rat.floor_def']

theorem ceilQ_eq (q : ℚ) : ceilQ q = ⌈q⌉ := by
  rw [ceilQ, floorQ_eq, ← Int.ceil_neg, neg_neg]

theorem roundQ_eq (q : ℚ) : roundQ q = round q := by
  rw [roundQ, floorQ_eq, round_eq]

theorem truncQ_of_nonneg {q : ℚ} (h : 0 ≤ q) : truncQ q = ⌊q⌋ := by
  rw [truncQ, if_pos h, floorQ_eq]

/-! ## Scalar lemmas behind the geometry claims -/

theorem fmodQ_eq_sub_mul_floor {a b : ℚ} (ha : 0 ≤ a) (hb : 0 < b) :
    fmodQ a b = a - b * (⌊a / b⌋ : ℚ) := by
  rw [fmodQ, truncQ_of_nonneg (div_nonneg ha hb.le)]

theorem overscan_scalar {a b : ℚ} (ha : 0 ≤ a) (hb : 0 < b) :
    0 ≤ fmodQ a b ∧ fmodQ a b < b ∧
    (a - fmodQ a b) / b + 1 = (⌊(a - fmodQ a b) / b⌋ : ℚ) + 1 ∧
    a ≤ ((a - fmodQ a b) / b + 1) * b ∧ ((a - fmodQ a b) / b + 1) * b ≤ a + b := by
  have hfm := fmodQ_eq_sub_mul_floor ha hb
  have h1 : (⌊a / b⌋ : ℚ) * b ≤ a := (le_div_iff₀ hb).mp (Int.floor_le (a / b))
  have h2 : a < ((⌊a / b⌋ : ℚ) + 1) * b := (div_lt_iff₀ hb).mp (Int.lt_floor_add_one (a / b))
  have hsub : a - fmodQ a b = b * (⌊a / b⌋ : ℚ) := by rw [hfm]; ring
  have hdiv : (a - fmodQ a b) / b = (⌊a / b⌋ : ℚ) := by
    rw [hsub, mul_div_cancel_left₀ _ hb.ne']
  refine ⟨by rw [hfm]; nlinarith, by rw [hfm]; nlinarith, ?_, ?_, ?_⟩
  · rw [hdiv, Int.floor_intCast]
  · rw [hdiv]; nlinarith
  · rw [hdiv]; nlinarith

theorem sample_diff_scalar {v s : ℚ} (hs : 0 < s) :
    0 ≤ (truncQ ((v - (floorQ v : ℚ)) * s) : ℚ) ∧
    (truncQ ((v - (floorQ v : ℚ)) * s) : ℚ) < s := by
  rw [floorQ_eq]
  have hf0 : 0 ≤ v - (⌊v⌋ : ℚ) := by linarith [Int.floor_le v]
  have hf1 : v - (⌊v⌋ : ℚ) < 1 := by linarith [Int.lt_floor_add_one v]
  have hr0 : 0 ≤ (v - (⌊v⌋ : ℚ)) * s := mul_nonneg hf0 hs.le
  have hrs : (v - (⌊v⌋ : ℚ)) * s < s := by nlinarith
  rw [truncQ_of_nonneg hr0]
  constructor
  · exact_mod_cast Int.floor_nonneg.mpr hr0
  · calc (⌊(v - (⌊v⌋ : ℚ)) * s⌋ : ℚ) ≤ (v - (⌊v⌋ : ℚ)) * s := Int.floor_le _
      _ < s := hrs

/-! ## Decimal-numeral lemmas -/

theorem toDigitsCore_acc (fuel : Nat) : ∀ (n : Nat) (ds : List Char),
    Nat.toDigitsCore 10 fuel n ds = Nat.toDigitsCore 10 fuel n [] ++ ds := by
  induction fuel with
  | zero => intro n ds; simp [Nat.toDigitsCore]
  | succ fuel ih =>
    intro n ds
    simp only [Nat.toDigitsCore]
    by_cases h : n / 10 = 0
    · simp [h]
    · simp only [h, if_false]
      rw [ih (n / 10) [Nat.digitChar (n % 10)], ih (n / 10) (Nat.digitChar (n % 10) :: ds),
        List.append_assoc]
      rfl

theorem toDigitsCore_fuel {fuel fuel' n : Nat} (h : n < fuel) (h' : n < fuel') (ds : List Char) :
    Nat.toDigitsCore 10 fuel n ds = Nat.toDigitsCore 10 fuel' n ds := by
  induction fuel generalizing fuel' n ds with
  | zero => omega
  | succ fuel ih =>
    cases fuel' with
    | zero => omega
    | succ fuel' =>
      simp only [Nat.toDigitsCore]
      by_cases h0 : n / 10 = 0
      · simp [h0]
      · simp only [h0, if_false]
        exact ih (by omega) (by omega) _

theorem digListVal_append_singleton (xs : List Char) (c : Char) :
    digListVal (xs ++ [c]) = 10 * digListVal xs + (c.toNat - 48) := by
  induction xs with
  | nil => simp [digListVal]
  | cons c' xs ih =>
    simp only [List.cons_append, digListVal, ih, List.append_eq, List.length_append,
      List.length_cons, List.length_nil]
    ring

theorem digitChar_val {d : Nat} (h : d < 10) : (Nat.digitChar d).toNat - 48 = d := by
  interval_cases d <;> rfl

theorem digListVal_toDigits (n : Nat) : digListVal (Nat.toDigits 10 n) = n := by
  induction n using Nat.strong_induction_on with
  | _ n ih =>
    rw [Nat.toDigits]
    simp only [Nat.toDigitsCore]
    by_cases h0 : n / 10 = 0
    · simp only [h0, if_false, if_true]
      have hn : n < 10 := by omega
      simp [digListVal, digitChar_val (Nat.mod_lt n (by norm_num) : n % 10 < 10)]
      omega
    · simp only [h0, if_false]
      have hdiv : n / 10 < n := Nat.div_lt_self (by omega) (by norm_num)
      rw [toDigitsCore_fuel (by omega) (Nat.lt_succ_self _) _, toDigitsCore_acc]
      rw [← Nat.toDigits]
      rw [digListVal_append_singleton, ih _ hdiv,
        digitChar_val (Nat.mod_lt n (by omega) : n % 10 < 10)]
      omega

theorem toString_nat_inj {m n : Nat} (h : toString m = toString n) : m = n := by
  have hm : toString m = (Nat.toDigits 10 m).asString := rfl
  have hn : toString n = (Nat.toDigits 10 n).asString := rfl
  rw [hm, hn] at h
  have hdig : Nat.toDigits 10 m = Nat.toDigits 10 n := congrArg String.data h
  calc m = digListVal (Nat.toDigits 10 m) := (digListVal_toDigits m).symm
    _ = digListVal (Nat.toDigits 10 n) := by rw [hdig]
    _ = n := digListVal_toDigits n

theorem frame_filename_inj (dir : String) :
    Function.Injective (fun i : Nat => dir ++ "/" ++ toString i ++ ".png") := by
  intro i j h
  have hd := congrArg String.data h
  simp only [String.data_append] at hd
  have h2 : (toString i).data = (toString j).data :=
    List.append_cancel_left (List.append_cancel_right hd)
  exact toString_nat_inj (String.ext h2)

theorem frame_filenames_nodup (dir : String) (n : Nat) :
    ((List.range n).map (fun i => dir ++ "/" ++ toString i ++ ".png")).Nodup :=
  (List.nodup_range n).map (frame_filename_inj dir)

/-! ## Behavior of a run of successful saves -/

theorem saveFrames_spec (img : Image) (s : ScreenCapture) (fs : FS) (n : Nat) :
    saveFrames img s fs n =
      (⟨s.frame_number + n, s.dir⟩,
       ⟨fs.dirs,
        ((List.range n).map
          (fun i => s.dir ++ "/" ++ toString (s.frame_number + i) ++ ".png")).reverse
          ++ fs.files⟩) := by
  induction n generalizing s fs with
  | zero => simp [saveFrames]
  | succ n ih =>
    simp only [saveFrames, save_frame, export_png, frameFilename, if_pos, ite_true]
    rw [ih]
    have hfun : (fun i => s.dir ++ "/" ++ toString (s.frame_number + 1 + i) ++ ".png")
        = ((fun i => s.dir ++ "/" ++ toString (s.frame_number + i) ++ ".png") ∘ Nat.succ) := by
      funext i
      simp only [Function.comp_apply]
      have harg : s.frame_number + 1 + i = s.frame_number + Nat.succ i := by omega
      rw [harg]
    simp only [hfun, List.range_succ_eq_map, List.map_cons, List.map_map, List.reverse_cons,
      List.append_assoc, List.singleton_append, Nat.add_zero]
    have hnum : s.frame_number + 1 + n = s.frame_number + (n + 1) := by omega
    rw [hnum]

/-! ## Claim theorems -/

/-- C1: after `begin_capture` (with the directory creation succeeding) and `n`
successful `save_frame` calls, the directory `capture/<millis>/frames/` was
created by `begin_capture`, `frame_index` starts at `0` and ends at `n`, the
files written are exactly the `n` pairwise-distinct names `0.png`, …,
`(n-1).png` inside that directory, and each successful `save_frame` writes
`{frame_index}.png` and then increments `frame_index` by exactly 1. -/
theorem capture_session_files (millis n : Nat) (img : Image) (fs : FS) :
    begin_capture millis fs true =
      .ok ⟨0, captureDirName millis⟩ ⟨captureDirName millis :: fs.dirs, fs.files⟩ ∧
    saveFrames img ⟨0, captureDirName millis⟩ ⟨captureDirName millis :: fs.dirs, fs.files⟩ n =
      (⟨n, captureDirName millis⟩,
       ⟨captureDirName millis :: fs.dirs,
        ((List.range n).map
          (fun i => captureDirName millis ++ "/" ++ toString i ++ ".png")).reverse
          ++ fs.files⟩) ∧
    ((List.range n).map
      (fun i => captureDirName millis ++ "/" ++ toString i ++ ".png")).Nodup ∧
    ∀ (s : ScreenCapture) (fs' : FS),
      save_frame s img fs' true =
        (⟨s.frame_number + 1, s.dir⟩, ⟨fs'.dirs, frameFilename s :: fs'.files⟩) := by
  refine ⟨rfl, ?_, frame_filenames_nodup _ n, fun s fs' => by simp [save_frame, export_png]⟩
  rw [saveFrames_spec]
  simp only [Nat.zero_add]

/-- C2 (counterexample): a session that has already saved frame `0`
(`frame_number = 1`) hits a failing write; `save_frame` still increments
`frame_number` to `2`, whereas the claim says a failing write leaves
`frame_index` unchanged at `1` so that a retry reuses it. -/
theorem save_frame_failure_cex :
    (save_frame ⟨1, "capture/7/frames/"⟩ ⟨1, 1, []⟩
        ⟨["capture/7/frames/"], ["capture/7/frames//0.png"]⟩ false).1.frame_number = 2 ∧
    ¬ ((save_frame ⟨1, "capture/7/frames/"⟩ ⟨1, 1, []⟩
        ⟨["capture/7/frames/"], ["capture/7/frames//0.png"]⟩ false).1.frame_number = 1) :=
  ⟨rfl, by decide⟩

/-- C2 (amended): `save_frame` never observes the write outcome: on a failing
encode/write it surfaces no error (its result carries no error channel), the
filesystem — hence every file written by an earlier `save_frame` — is
untouched, the session keeps its directory, but `frame_index` is incremented
by exactly 1 anyway, so a retry writes `{frame_index + 1}.png` instead of
reusing the failed index. -/
theorem save_frame_failure_behavior (s : ScreenCapture) (img : Image) (fs : FS) :
    save_frame s img fs false = (⟨s.frame_number + 1, s.dir⟩, fs) ∧
    (save_frame (save_frame s img fs false).1 img (save_frame s img fs false).2 true).2.files =
      (s.dir ++ "/" ++ toString (s.frame_number + 1) ++ ".png") :: fs.files := by
  constructor
  · simp [save_frame, export_png]
  · simp [save_frame, export_png, frameFilename]

/-- C3 (counterexample): at `ideal_offset = (1/2, 1/2)`, `aligned_offset =
floor(ideal_offset) = (0, 0)` and `scale_factor = 4`, the computed bias is
`(2, -1)`: the `x` component is not below 1 and the `y` component is not
nonnegative, so the bias is not componentwise in `[0, 1)`. -/
theorem sampling_bias_cex :
    u_sampleProperties_zw ⟨1/2, 1/2⟩ 4 = ⟨2, -1⟩ ∧
    ¬ ((u_sampleProperties_zw ⟨1/2, 1/2⟩ 4).x < 1 ∧
        0 ≤ (u_sampleProperties_zw ⟨1/2, 1/2⟩ 4).y) := by
  have h : u_sampleProperties_zw ⟨1/2, 1/2⟩ 4 = ⟨2, -1⟩ := by
    simp only [u_sampleProperties_zw, sampleDiff, camera_offset_pixel_aligned, truncQ, floorQ_eq]
    norm_num
  refine ⟨h, ?_⟩
  rw [h]
  norm_num

/-- C3 (amended): for `scale_factor > 0` the bias components are whole
numbers (each equals its own floor); the `x` component lies in
`[0, scale_factor)` and the flipped `y` component lies in
`(1 - scale_factor, 1]` — the `[0, 1)` range claimed by the spec is obtained
only after the shader divides by `upscale`. -/
theorem sampling_bias_range (ideal : Vec2) (scale : ℚ) (hs : 0 < scale) :
    (0 ≤ (u_sampleProperties_zw ideal scale).x ∧
      (u_sampleProperties_zw ideal scale).x < scale ∧
      (⌊(u_sampleProperties_zw ideal scale).x⌋ : ℚ) = (u_sampleProperties_zw ideal scale).x) ∧
    (1 - scale < (u_sampleProperties_zw ideal scale).y ∧
      (u_sampleProperties_zw ideal scale).y ≤ 1 ∧
      (⌊(u_sampleProperties_zw ideal scale).y⌋ : ℚ) = (u_sampleProperties_zw ideal scale).y) := by
  obtain ⟨hx0, hxs⟩ := sample_diff_scalar (v := ideal.x) hs
  obtain ⟨hy0, hys⟩ := sample_diff_scalar (v := ideal.y) hs
  have hgen : ∀ z : ℤ, (⌊(1 : ℚ) - (z : ℚ)⌋ : ℚ) = 1 - (z : ℚ) := by
    intro z
    rw [show (1 : ℚ) - (z : ℚ) = ((1 - z : ℤ) : ℚ) by push_cast; ring, Int.floor_intCast]
  simp only [u_sampleProperties_zw, sampleDiff, camera_offset_pixel_aligned]
  exact ⟨⟨hx0, hxs, by rw [Int.floor_intCast]⟩, by linarith, by linarith, hgen _⟩

/-- C3 (witness): the amended range theorem applied at
`ideal_offset = (1/2, 1/2)`, `scale_factor = 4`. -/
theorem sampling_bias_range_witness :
    (0 : ℚ) < 4 ∧
    ((0 ≤ (u_sampleProperties_zw ⟨1/2, 1/2⟩ 4).x ∧
      (u_sampleProperties_zw ⟨1/2, 1/2⟩ 4).x < 4 ∧
      (⌊(u_sampleProperties_zw ⟨1/2, 1/2⟩ 4).x⌋ : ℚ) = (u_sampleProperties_zw ⟨1/2, 1/2⟩ 4).x) ∧
    (1 - 4 < (u_sampleProperties_zw ⟨1/2, 1/2⟩ 4).y ∧
      (u_sampleProperties_zw ⟨1/2, 1/2⟩ 4).y ≤ 1 ∧
      (⌊(u_sampleProperties_zw ⟨1/2, 1/2⟩ 4).y⌋ : ℚ) = (u_sampleProperties_zw ⟨1/2, 1/2⟩ 4).y)) :=
  ⟨by norm_num, sampling_bias_range ⟨1/2, 1/2⟩ 4 (by norm_num)⟩

/-- C4 (counterexample): at `ideal_offset = (3/4, 3/4)` the code's aligned
offset is `floor(ideal) = (0, 0)`, while the spec's `round(ideal)` is
`(1, 1)` (for any tie-breaking convention, since `3/4` is not a tie): the
aligned offset does not equal `round(ideal_offset)`. -/
theorem camera_aligned_not_round_cex :
    camera_offset_pixel_aligned ⟨3/4, 3/4⟩ = ⟨0, 0⟩ ∧
    roundedOffsetSpec ⟨3/4, 3/4⟩ = ⟨1, 1⟩ ∧
    camera_offset_pixel_aligned ⟨3/4, 3/4⟩ ≠ roundedOffsetSpec ⟨3/4, 3/4⟩ := by
  have h1 : camera_offset_pixel_aligned ⟨3/4, 3/4⟩ = ⟨0, 0⟩ := by
    simp only [camera_offset_pixel_aligned, floorQ_eq]
    norm_num
  have h2 : roundedOffsetSpec ⟨3/4, 3/4⟩ = ⟨1, 1⟩ := by
    simp only [roundedOffsetSpec, roundQ, floorQ_eq]
    norm_num
  refine ⟨h1, h2, ?_⟩
  rw [h1, h2]
  norm_num [Vec2.mk.injEq]

/-- C4 (amended): under the world-pixel alignment policy the per-frame aligned
camera offset equals `floor(ideal_offset)` componentwise (not `round`), and is
therefore always an integer in virtual-pixel units (each component equals its
own floor). -/
theorem camera_aligned_is_floor (ideal : Vec2) :
    camera_offset_pixel_aligned ideal = ⟨(⌊ideal.x⌋ : ℚ), (⌊ideal.y⌋ : ℚ)⟩ ∧
    (⌊(camera_offset_pixel_aligned ideal).x⌋ : ℚ) = (camera_offset_pixel_aligned ideal).x ∧
    (⌊(camera_offset_pixel_aligned ideal).y⌋ : ℚ) = (camera_offset_pixel_aligned ideal).y := by
  refine ⟨by simp [camera_offset_pixel_aligned, floorQ_eq], ?_, ?_⟩ <;>
    simp [camera_offset_pixel_aligned, floorQ_eq, Int.floor_intCast]

/-- C5: in Overscan mode, for nonnegative window resolution and positive
scale factor, the leftover lies componentwise in `[0, scale)`, the canvas size
equals `floor((window_resolution - leftover) / scale) + 1` componentwise, and
the scaled canvas covers the window, exceeding it by at most one
`scale`-sized virtual pixel. -/
theorem overscan_canvas (res : Vec2) (scale : ℚ)
    (hx : 0 ≤ res.x) (hy : 0 ≤ res.y) (hs : 0 < scale) :
    (0 ≤ (leftover_pixels res scale).x ∧ (leftover_pixels res scale).x < scale ∧
      0 ≤ (leftover_pixels res scale).y ∧ (leftover_pixels res scale).y < scale) ∧
    canvas_size res scale =
      ⟨(⌊(res.x - (leftover_pixels res scale).x) / scale⌋ : ℚ) + 1,
       (⌊(res.y - (leftover_pixels res scale).y) / scale⌋ : ℚ) + 1⟩ ∧
    (res.x ≤ (canvas_size res scale).x * scale ∧
      (canvas_size res scale).x * scale ≤ res.x + scale) ∧
    (res.y ≤ (canvas_size res scale).y * scale ∧
      (canvas_size res scale).y * scale ≤ res.y + scale) := by
  obtain ⟨hx0, hxlt, hxfl, hxge, hxle⟩ := overscan_scalar hx hs
  obtain ⟨hy0, hylt, hyfl, hyge, hyle⟩ := overscan_scalar hy hs
  refine ⟨⟨hx0, hxlt, hy0, hylt⟩, ?_, ⟨hxge, hxle⟩, ⟨hyge, hyle⟩⟩
  show Vec2.mk ((res.x - (leftover_pixels res scale).x) / scale + 1)
      ((res.y - (leftover_pixels res scale).y) / scale + 1) = _
  rw [Vec2.mk.injEq]
  exact ⟨hxfl, hyfl⟩

/-- C5 (witness): the Overscan theorem applied at
`window_resolution = (1000, 700)`, `scale_factor = 3`. -/
theorem overscan_canvas_witness :
    (0 : ℚ) ≤ 1000 ∧ (0 : ℚ) ≤ 700 ∧ (0 : ℚ) < 3 ∧
    ((0 ≤ (leftover_pixels ⟨1000, 700⟩ 3).x ∧ (leftover_pixels ⟨1000, 700⟩ 3).x < 3 ∧
      0 ≤ (leftover_pixels ⟨1000, 700⟩ 3).y ∧ (leftover_pixels ⟨1000, 700⟩ 3).y < 3) ∧
    canvas_size ⟨1000, 700⟩ 3 =
      ⟨(⌊((1000 : ℚ) - (leftover_pixels ⟨1000, 700⟩ 3).x) / 3⌋ : ℚ) + 1,
       (⌊((700 : ℚ) - (leftover_pixels ⟨1000, 700⟩ 3).y) / 3⌋ : ℚ) + 1⟩ ∧
    ((1000 : ℚ) ≤ (canvas_size ⟨1000, 700⟩ 3).x * 3 ∧
      (canvas_size ⟨1000, 700⟩ 3).x * 3 ≤ 1000 + 3) ∧
    ((700 : ℚ) ≤ (canvas_size ⟨1000, 700⟩ 3).y * 3 ∧
      (canvas_size ⟨1000, 700⟩ 3).y * 3 ≤ 700 + 3)) :=
  ⟨by norm_num, by norm_num, by norm_num,
    overscan_canvas ⟨1000, 700⟩ 3 (by norm_num) (by norm_num) (by norm_num)⟩

/-- C6: for every ideal offset, the aligned offset derived by the code
(componentwise floor) stays within one virtual pixel of the ideal offset:
`|ideal_offset - aligned_offset| < 1` componentwise. -/
theorem camera_within_one_pixel (ideal : Vec2) :
    |ideal.x - (camera_offset_pixel_aligned ideal).x| < 1 ∧
    |ideal.y - (camera_offset_pixel_aligned ideal).y| < 1 := by
  have h : ∀ v : ℚ, |v - (⌊v⌋ : ℚ)| < 1 := by
    intro v
    rw [abs_lt]
    constructor
    · linarith [Int.floor_le v]
    · linarith [Int.lt_floor_add_one v]
  simp only [camera_offset_pixel_aligned, floorQ_eq]
  exact ⟨h ideal.x, h ideal.y⟩

/-- C7: for positive scale, mapping a canvas-space point to screen space with
`canvas_to_screen` and back with the exact (un-snapped) pointer mapping
`virtual_mouse_pos_exact` yields the original point. -/
theorem screen_canvas_round_trip (p res cs : Vec2) (scale : ℚ) (hs : 0 < scale) :
    virtual_mouse_pos_exact (canvas_to_screen p res cs scale) res cs scale = p := by
  obtain ⟨px, py⟩ := p
  have hne : scale ≠ 0 := ne_of_gt hs
  simp only [virtual_mouse_pos_exact, canvas_to_screen, Vec2.mk.injEq]
  constructor <;> field_simp

/-- C7 (witness): the round trip applied at `p = (3, 5)`,
`window_resolution = (1000, 700)`, `canvas_size = (334, 234)`,
`scale_factor = 3`. -/
theorem screen_canvas_round_trip_witness :
    (0 : ℚ) < 3 ∧
    virtual_mouse_pos_exact (canvas_to_screen ⟨3, 5⟩ ⟨1000, 700⟩ ⟨334, 234⟩ 3)
      ⟨1000, 700⟩ ⟨334, 234⟩ 3 = ⟨3, 5⟩ :=
  ⟨by norm_num, screen_canvas_round_trip ⟨3, 5⟩ ⟨1000, 700⟩ ⟨334, 234⟩ 3 (by norm_num)⟩

/-- C8: a `save_frame` request while no session is active yields
`InvalidTransition`, leaves the state `Inactive` and the filesystem (hence the
set of files) unchanged. -/
theorem save_frame_while_inactive (img : Image) (fs : FS) (w : Bool) :
    trySaveFrame .inactive img fs w = (.inactive, fs, some .invalidTransition) :=
  rfl

/-- C9 (counterexample): when the directory cannot be created,
`begin_capture` panics with `"failed to create capture dir"` (the `expect` in
the source), which crashes the render loop; in particular the outcome is not
a `CaptureInitError` reported to the caller. -/
theorem begin_capture_failure_cex :
    begin_capture 0 ⟨[], []⟩ false = .panicked ("failed to create capture dir") ∧
    begin_capture 0 ⟨[], []⟩ false ≠ .err .captureInitError ⟨[], []⟩ :=
  ⟨rfl, by decide⟩

/-- C9 (amended): if the session directory cannot be created, `begin_capture`
panics with the `expect` message `"failed to create capture dir"` — no
session value is produced (capture stays inactive only in the sense that no
session exists) and no error value is reported; the panic propagates out of
the render loop. -/
theorem begin_capture_failure_panics (millis : Nat) (fs : FS) :
    begin_capture millis fs false = .panicked ("failed to create capture dir") :=
  rfl

/-- C10: `end_capture` returns the session and filesystem unchanged (it only
produces a summary string), and a `save_frame` call made after `end_capture`
still writes the next sequentially numbered file into the same session
directory and increments the frame counter. -/
theorem end_capture_keeps_session (s : ScreenCapture) (fs : FS) (img : Image) :
    (end_capture s fs).1 = s ∧ (end_capture s fs).2.1 = fs ∧
    save_frame (end_capture s fs).1 img (end_capture s fs).2.1 true =
      (⟨s.frame_number + 1, s.dir⟩,
       ⟨fs.dirs, (s.dir ++ "/" ++ toString s.frame_number ++ ".png") :: fs.files⟩) := by
  refine ⟨rfl, rfl, ?_⟩
  simp [end_capture, save_frame, export_png, frameFilename]
